import Mathlib

/-!
Verification of the request-validation and error-classification subsystem of
the posts CRUD API (files `validation.schemas.ts` and the error-taxonomy part
of `schema.ts`).  The TypeScript code is shallowly embedded: JavaScript values
are modelled by the inductive `JsValue`, each validator's `validateData`
method becomes a pure function from a `JsValue` to an error list paired with
an optional DTO, and the `BaseValidator.validate` driver becomes
`runValidate`.  The error classes become a record `ApiError` built by
constructor functions keeping the source names.
-/

set_option maxHeartbeats 1000000
set_option maxRecDepth 8192

/-- Model of a JavaScript runtime value as handed to the validators
(decoded JSON body or query mapping).  `vUndef` is the `undefined` value;
object fields are an association list with distinct keys, as produced by
JSON parsing. Numbers are modelled as integers (the validators are only ever
exercised with integral JSON numbers; `NaN` never enters through JSON). -/
inductive JsValue where
  | vUndef
  | vNull
  | vBool (b : Bool)
  | vNum (n : Int)
  | vStr (s : String)
  | vArr (elems : List JsValue)
  | vObj (fields : List (String × JsValue))

/-- JavaScript truthiness of a value (`!x` negates this): `undefined`,
`null`, `false`, `0`, and the empty string are falsy; objects and arrays are
always truthy. -/
def jsTruthy : JsValue → Bool
  | .vUndef => false
  | .vNull => false
  | .vBool b => b
  | .vNum n => n != 0
  | .vStr s => s != ""
  | .vArr _ => true
  | .vObj _ => true

/-- Whether `typeof x === "object"` holds: objects, arrays and `null`. -/
def typeofIsObject : JsValue → Bool
  | .vNull => true
  | .vArr _ => true
  | .vObj _ => true
  | _ => false

/-- First-match lookup in an object's field list (keys are assumed distinct). -/
def jsLookup : List (String × JsValue) → String → Option JsValue
  | [], _ => none
  | (k, v) :: rest, name => if k = name then some v else jsLookup rest name

/-- Property access `input.name`. A field explicitly set to `undefined` is
indistinguishable from an absent field for every test the validators perform
(`!x`, `x !== undefined`, `typeof`), so both map to `none`.  Non-object
receivers (including arrays, which carry none of the validated field names)
yield `none`. -/
def getField (data : JsValue) (name : String) : Option JsValue :=
  match data with
  | .vObj fields =>
    match jsLookup fields name with
    | some .vUndef => none
    | some v => some v
    | none => none
  | _ => none

/-- Truthiness of a possibly-absent property (absent reads as `undefined`). -/
def jsTruthyOpt : Option JsValue → Bool
  | none => false
  | some v => jsTruthy v

mutual

/-- JavaScript `String(x)` conversion, used by the query validator on
`page`, `limit` and `categoryId`. -/
def jsToString : JsValue → String
  | .vUndef => "undefined"
  | .vNull => "null"
  | .vBool true => "true"
  | .vBool false => "false"
  | .vNum n => toString n
  | .vStr s => s
  | .vArr xs => jsArrToString xs
  | .vObj _ => "[object Object]"

/-- Array-to-string: elements joined with commas. -/
def jsArrToString : List JsValue → String
  | [] => ""
  | [x] => jsArrElemToString x
  | x :: y :: xs => jsArrElemToString x ++ "," ++ jsArrToString (y :: xs)

/-- Inside a joined array, `null` and `undefined` render as the empty string. -/
def jsArrElemToString : JsValue → String
  | .vUndef => ""
  | .vNull => ""
  | v => jsToString v

end

/-- JavaScript `String.prototype.trim`: drop whitespace from both ends
(structurally recursive model, so that concrete runs reduce in the kernel). -/
def jsTrim (s : String) : String :=
  ⟨(((s.data.dropWhile Char.isWhitespace).reverse.dropWhile Char.isWhitespace).reverse)⟩

/-- JavaScript `String.prototype.split` with a one-character separator,
on the character list: `split` never returns an empty list and keeps empty
segments (so the empty string yields one empty segment). -/
def splitOnChar (c : Char) : List Char → List (List Char)
  | [] => [[]]
  | x :: xs =>
    if x = c then [] :: splitOnChar c xs
    else
      match splitOnChar c xs with
      | [] => [[x]]
      | h :: t => (x :: h) :: t

/-- Decimal value of a digit string. -/
def digitsToNat (ds : List Char) : Nat :=
  ds.foldl (fun a c => a * 10 + (c.toNat - 48)) 0

/-- JavaScript `parseInt(s, 10)`: skip surrounding whitespace, read an
optional sign and then the longest digit prefix; `none` models `NaN` (no
digits found).  Trailing garbage after the digits is ignored. -/
def jsParseInt (s : String) : Option Int :=
  match (jsTrim s).data with
  | '-' :: rest =>
    let ds := rest.takeWhile Char.isDigit
    if ds.isEmpty then none else some (-(digitsToNat ds : Int))
  | '+' :: rest =>
    let ds := rest.takeWhile Char.isDigit
    if ds.isEmpty then none else some ((digitsToNat ds : Int))
  | rest =>
    let ds := rest.takeWhile Char.isDigit
    if ds.isEmpty then none else some ((digitsToNat ds : Int))

namespace ValidationUtils

/-- `ValidationUtils.sanitizeString`: trim surrounding whitespace. -/
def sanitizeString (value : String) : String :=
  jsTrim value

/-- `ValidationUtils.parseIntegerArray`: split on commas, trim each token,
parse as base-10 integer, and drop the tokens that do not parse. -/
def parseIntegerArray (value : String) : List Int :=
  (splitOnChar (Char.ofNat 44) value.data).filterMap
    (fun cs => jsParseInt (sanitizeString (String.mk cs)))

end ValidationUtils

/-- A single field-level validation error, `{field, message, code}`. -/
structure ValidationError where
  field : String
  message : String
  code : String
deriving Repr, DecidableEq

/-- The `CreatePostRequest` DTO.  Fields are optional because the source
builds it as `Partial<CreatePostRequest>` and only casts at the end. -/
structure CreatePostRequest where
  title : Option String
  content : Option String
  categoryId : Option Int
  description : Option String
  coverImageUrl : Option String
  tagIds : Option (List Int)
  readTime : Option String
deriving Repr, DecidableEq

/-- The `UpdatePostRequest` DTO (all fields optional). -/
structure UpdatePostRequest where
  title : Option String
  content : Option String
  categoryId : Option Int
  description : Option String
  coverImageUrl : Option String
  tagIds : Option (List Int)
  readTime : Option String
deriving Repr, DecidableEq

/-- The `ListPostsQuery` DTO built by the query-parameter validator. -/
structure ListPostsQuery where
  page : Option Int
  limit : Option Int
  categoryId : Option Int
  tagIds : Option String
  authorId : Option String
  search : Option String
  sortBy : Option String
  sortOrder : Option String
deriving Repr, DecidableEq

/-- Result of `BaseValidator.validate`.  `success` carries the value of
`validatedData` at the return site: the source writes `data: validatedData!`
where the `!` is a type-level assertion only, so the payload is kept as an
`Option` and the fact that it is always `some` on the success path is proved,
not assumed. -/
inductive ValidationResult (T : Type) where
  | success (data : Option T)
  | failure (errors : List ValidationError)
deriving Repr, DecidableEq

/-- Whether a validation result is the success variant. -/
def ValidationResult.isSuccess {T : Type} : ValidationResult T → Bool
  | .success _ => true
  | .failure _ => false

/-- The error list of a result (empty for the success variant). -/
def ValidationResult.errorList {T : Type} : ValidationResult T → List ValidationError
  | .success _ => []
  | .failure errs => errs

/-- The data of a result (`none` for the failure variant). -/
def ValidationResult.dataOf {T : Type} : ValidationResult T → Option T
  | .success d => d
  | .failure _ => none

/-- Whether the result carries an error with the given field and code. -/
def hasError {T : Type} (r : ValidationResult T) (f c : String) : Bool :=
  r.errorList.any (fun e => e.field == f && e.code == c)

/-- Title check of `CreatePostValidator.validateData`: required (truthy),
string, non-empty after trim, at most 255 characters before trimming;
sanitized (trimmed) on success. -/
def checkCreateTitle (v : Option JsValue) : List ValidationError × Option String :=
  if !jsTruthyOpt v then ([⟨"title", "Title is required", "REQUIRED"⟩], none)
  else
    match v with
    | some (.vStr s) =>
      if (jsTrim s).length = 0 then ([⟨"title", "Title cannot be empty", "EMPTY_VALUE"⟩], none)
      else if s.length > 255 then
        ([⟨"title", "Title cannot exceed 255 characters", "MAX_LENGTH"⟩], none)
      else ([], some (ValidationUtils.sanitizeString s))
    | _ => ([⟨"title", "Title must be a string", "INVALID_TYPE"⟩], none)

/-- Content check of `CreatePostValidator.validateData`: required, string,
non-empty after trim; trimmed on success. -/
def checkCreateContent (v : Option JsValue) : List ValidationError × Option String :=
  if !jsTruthyOpt v then ([⟨"content", "Content is required", "REQUIRED"⟩], none)
  else
    match v with
    | some (.vStr s) =>
      if (jsTrim s).length = 0 then ([⟨"content", "Content cannot be empty", "EMPTY_VALUE"⟩], none)
      else ([], some (ValidationUtils.sanitizeString s))
    | _ => ([⟨"content", "Content must be a string", "INVALID_TYPE"⟩], none)

/-- Category check of `CreatePostValidator.validateData`: required (truthy,
so the number `0` already fails here), number, positive. -/
def checkCreateCategoryId (v : Option JsValue) : List ValidationError × Option Int :=
  if !jsTruthyOpt v then ([⟨"categoryId", "Category ID is required", "REQUIRED"⟩], none)
  else
    match v with
    | some (.vNum n) =>
      if n ≤ 0 then
        ([⟨"categoryId", "Category ID must be a positive number", "INVALID_VALUE"⟩], none)
      else ([], some n)
    | _ => ([⟨"categoryId", "Category ID must be a number", "INVALID_TYPE"⟩], none)

/-- Description check (shared text by create and update): optional, string,
at most 500 characters; trimmed on success. -/
def checkDescription (v : Option JsValue) : List ValidationError × Option String :=
  match v with
  | none => ([], none)
  | some (.vStr s) =>
    if s.length > 500 then
      ([⟨"description", "Description cannot exceed 500 characters", "MAX_LENGTH"⟩], none)
    else ([], some (ValidationUtils.sanitizeString s))
  | some _ => ([⟨"description", "Description must be a string", "INVALID_TYPE"⟩], none)

/-- Cover-image check (shared by create and update): optional, string, and
when non-empty it must pass the URL parser `isValidUrl` (the source defers
to the host's `new URL`, taken here as the parameter `u`).  On success the
value is assigned verbatim, not trimmed. -/
def checkCoverImageUrl (u : String → Bool) (v : Option JsValue) :
    List ValidationError × Option String :=
  match v with
  | none => ([], none)
  | some (.vStr s) =>
    if s.length > 0 && !u s then
      ([⟨"coverImageUrl", "Cover image URL must be a valid URL", "INVALID_URL"⟩], none)
    else ([], some s)
  | some _ => ([⟨"coverImageUrl", "Cover image URL must be a string", "INVALID_TYPE"⟩], none)

/-- Indexed loop over a `tagIds` array: each element must be a positive
number; offenders are flagged per index, valid values are collected in
order. -/
def checkTagIdsElems (i : Nat) : List JsValue → List ValidationError × List Int
  | [] => ([], [])
  | v :: rest =>
    let p := checkTagIdsElems (i + 1) rest
    match v with
    | .vNum n =>
      if n ≤ 0 then
        (⟨"tagIds[" ++ toString i ++ "]", "Tag ID must be a positive number",
          "INVALID_VALUE"⟩ :: p.1, p.2)
      else (p.1, n :: p.2)
    | _ =>
      (⟨"tagIds[" ++ toString i ++ "]", "Tag ID must be a number",
        "INVALID_TYPE"⟩ :: p.1, p.2)

/-- Tag-id check of `CreatePostValidator.validateData`: optional, array; the
filtered list of valid ids is assigned only when it is non-empty. -/
def checkCreateTagIds (v : Option JsValue) : List ValidationError × Option (List Int) :=
  match v with
  | none => ([], none)
  | some (.vArr xs) =>
    let p := checkTagIdsElems 0 xs
    (p.1, if p.2.length > 0 then some p.2 else none)
  | some _ => ([⟨"tagIds", "Tag IDs must be an array", "INVALID_TYPE"⟩], none)

/-- Tag-id check of `UpdatePostValidator.validateData`: like the create
variant but the (possibly empty) filtered list is always assigned. -/
def checkUpdateTagIds (v : Option JsValue) : List ValidationError × Option (List Int) :=
  match v with
  | none => ([], none)
  | some (.vArr xs) =>
    let p := checkTagIdsElems 0 xs
    (p.1, some p.2)
  | some _ => ([⟨"tagIds", "Tag IDs must be an array", "INVALID_TYPE"⟩], none)

/-- Read-time check (shared by create and update): optional, string, at most
50 characters; trimmed on success. -/
def checkReadTime (v : Option JsValue) : List ValidationError × Option String :=
  match v with
  | none => ([], none)
  | some (.vStr s) =>
    if s.length > 50 then
      ([⟨"readTime", "Read time cannot exceed 50 characters", "MAX_LENGTH"⟩], none)
    else ([], some (ValidationUtils.sanitizeString s))
  | some _ => ([⟨"readTime", "Read time must be a string", "INVALID_TYPE"⟩], none)

/-- Title check of `UpdatePostValidator.validateData`: optional, but when
present the same string/emptiness/length rules as on create apply. -/
def checkUpdateTitle (v : Option JsValue) : List ValidationError × Option String :=
  match v with
  | none => ([], none)
  | some (.vStr s) =>
    if (jsTrim s).length = 0 then ([⟨"title", "Title cannot be empty", "EMPTY_VALUE"⟩], none)
    else if s.length > 255 then
      ([⟨"title", "Title cannot exceed 255 characters", "MAX_LENGTH"⟩], none)
    else ([], some (ValidationUtils.sanitizeString s))
  | some _ => ([⟨"title", "Title must be a string", "INVALID_TYPE"⟩], none)

/-- Content check of `UpdatePostValidator.validateData`. -/
def checkUpdateContent (v : Option JsValue) : List ValidationError × Option String :=
  match v with
  | none => ([], none)
  | some (.vStr s) =>
    if (jsTrim s).length = 0 then ([⟨"content", "Content cannot be empty", "EMPTY_VALUE"⟩], none)
    else ([], some (ValidationUtils.sanitizeString s))
  | some _ => ([⟨"content", "Content must be a string", "INVALID_TYPE"⟩], none)

/-- Category check of `UpdatePostValidator.validateData`: optional, number,
positive (on update `0` reaches the positivity test, unlike on create). -/
def checkUpdateCategoryId (v : Option JsValue) : List ValidationError × Option Int :=
  match v with
  | none => ([], none)
  | some (.vNum n) =>
    if n ≤ 0 then
      ([⟨"categoryId", "Category ID must be a positive number", "INVALID_VALUE"⟩], none)
    else ([], some n)
  | some _ => ([⟨"categoryId", "Category ID must be a number", "INVALID_TYPE"⟩], none)

/-- Embedding of `CreatePostValidator.validateData`: the error list is the
concatenation of the per-field error lists in source order; the DTO is
returned exactly when that list is empty. -/
def validateCreateData (u : String → Bool) (data : JsValue) :
    List ValidationError × Option CreatePostRequest :=
  if jsTruthy data && typeofIsObject data then
    let t := checkCreateTitle (getField data "title")
    let c := checkCreateContent (getField data "content")
    let k := checkCreateCategoryId (getField data "categoryId")
    let d := checkDescription (getField data "description")
    let cu := checkCoverImageUrl u (getField data "coverImageUrl")
    let tg := checkCreateTagIds (getField data "tagIds")
    let rt := checkReadTime (getField data "readTime")
    let errs := t.1 ++ c.1 ++ k.1 ++ d.1 ++ cu.1 ++ tg.1 ++ rt.1
    (errs,
      if errs.isEmpty then
        some { title := t.2, content := c.2, categoryId := k.2, description := d.2,
               coverImageUrl := cu.2, tagIds := tg.2, readTime := rt.2 }
      else none)
  else ([⟨"root", "Request body must be an object", "INVALID_TYPE"⟩], none)

/-- Embedding of `UpdatePostValidator.validateData`. -/
def validateUpdateData (u : String → Bool) (data : JsValue) :
    List ValidationError × Option UpdatePostRequest :=
  if jsTruthy data && typeofIsObject data then
    let t := checkUpdateTitle (getField data "title")
    let c := checkUpdateContent (getField data "content")
    let k := checkUpdateCategoryId (getField data "categoryId")
    let d := checkDescription (getField data "description")
    let cu := checkCoverImageUrl u (getField data "coverImageUrl")
    let tg := checkUpdateTagIds (getField data "tagIds")
    let rt := checkReadTime (getField data "readTime")
    let errs := t.1 ++ c.1 ++ k.1 ++ d.1 ++ cu.1 ++ tg.1 ++ rt.1
    (errs,
      if errs.isEmpty then
        some { title := t.2, content := c.2, categoryId := k.2, description := d.2,
               coverImageUrl := cu.2, tagIds := tg.2, readTime := rt.2 }
      else none)
  else ([⟨"root", "Request body must be an object", "INVALID_TYPE"⟩], none)

/-- Page check of `QueryParamsValidator.validateData`: coerce to string,
`parseInt`, and require a value of at least 1. -/
def checkQueryPage (v : Option JsValue) : List ValidationError × Option Int :=
  match v with
  | none => ([], none)
  | some w =>
    match jsParseInt (jsToString w) with
    | none => ([⟨"page", "Page must be a positive integer", "INVALID_VALUE"⟩], none)
    | some p =>
      if p < 1 then ([⟨"page", "Page must be a positive integer", "INVALID_VALUE"⟩], none)
      else ([], some p)

/-- Limit check of `QueryParamsValidator.validateData`: at least 1 and at
most 100. -/
def checkQueryLimit (v : Option JsValue) : List ValidationError × Option Int :=
  match v with
  | none => ([], none)
  | some w =>
    match jsParseInt (jsToString w) with
    | none => ([⟨"limit", "Limit must be a positive integer", "INVALID_VALUE"⟩], none)
    | some l =>
      if l < 1 then ([⟨"limit", "Limit must be a positive integer", "INVALID_VALUE"⟩], none)
      else if l > 100 then ([⟨"limit", "Limit cannot exceed 100", "MAX_VALUE"⟩], none)
      else ([], some l)

/-- Category check of `QueryParamsValidator.validateData`. -/
def checkQueryCategoryId (v : Option JsValue) : List ValidationError × Option Int :=
  match v with
  | none => ([], none)
  | some w =>
    match jsParseInt (jsToString w) with
    | none =>
      ([⟨"categoryId", "Category ID must be a positive integer", "INVALID_VALUE"⟩], none)
    | some c =>
      if c < 1 then
        ([⟨"categoryId", "Category ID must be a positive integer", "INVALID_VALUE"⟩], none)
      else ([], some c)

/-- Tag-id check of `QueryParamsValidator.validateData`: a comma-separated
string; an error is raised only when the parse yields no integers although
the string is non-empty after trimming.  On the non-error path the original
string is assigned. -/
def checkQueryTagIds (v : Option JsValue) : List ValidationError × Option String :=
  match v with
  | none => ([], none)
  | some (.vStr s) =>
    let parsed := ValidationUtils.parseIntegerArray s
    if parsed.length = 0 ∧ 0 < (jsTrim s).length then
      ([⟨"tagIds", "Tag IDs must be valid integers", "INVALID_VALUE"⟩], none)
    else ([], some s)
  | some _ => ([⟨"tagIds", "Tag IDs must be a comma-separated string", "INVALID_TYPE"⟩], none)

/-- Author check of `QueryParamsValidator.validateData`: string, non-empty
after trim; trimmed on success. -/
def checkQueryAuthorId (v : Option JsValue) : List ValidationError × Option String :=
  match v with
  | none => ([], none)
  | some (.vStr s) =>
    if (jsTrim s).length = 0 then ([⟨"authorId", "Author ID cannot be empty", "EMPTY_VALUE"⟩], none)
    else ([], some (ValidationUtils.sanitizeString s))
  | some _ => ([⟨"authorId", "Author ID must be a string", "INVALID_TYPE"⟩], none)

/-- Search check of `QueryParamsValidator.validateData`: string, at most 255
characters; trimmed on success. -/
def checkQuerySearch (v : Option JsValue) : List ValidationError × Option String :=
  match v with
  | none => ([], none)
  | some (.vStr s) =>
    if s.length > 255 then
      ([⟨"search", "Search cannot exceed 255 characters", "MAX_LENGTH"⟩], none)
    else ([], some (ValidationUtils.sanitizeString s))
  | some _ => ([⟨"search", "Search must be a string", "INVALID_TYPE"⟩], none)

/-- Sort-field check of `QueryParamsValidator.validateData`: one of
`publishedAt`, `createdAt`, `title`. -/
def checkQuerySortBy (v : Option JsValue) : List ValidationError × Option String :=
  match v with
  | none => ([], none)
  | some (.vStr s) =>
    if (["publishedAt", "createdAt", "title"] : List String).contains s then ([], some s)
    else
      ([⟨"sortBy", "Sort by must be one of: publishedAt, createdAt, title",
        "INVALID_VALUE"⟩], none)
  | some _ => ([⟨"sortBy", "Sort by must be a string", "INVALID_TYPE"⟩], none)

/-- Sort-order check of `QueryParamsValidator.validateData`: `asc` or
`desc`. -/
def checkQuerySortOrder (v : Option JsValue) : List ValidationError × Option String :=
  match v with
  | none => ([], none)
  | some (.vStr s) =>
    if (["asc", "desc"] : List String).contains s then ([], some s)
    else
      ([⟨"sortOrder", "Sort order must be either \x27asc\x27 or \x27desc\x27",
        "INVALID_VALUE"⟩], none)
  | some _ => ([⟨"sortOrder", "Sort order must be a string", "INVALID_TYPE"⟩], none)

/-- Embedding of `QueryParamsValidator.validateData`. -/
def validateQueryData (data : JsValue) : List ValidationError × Option ListPostsQuery :=
  if jsTruthy data && typeofIsObject data then
    let p := checkQueryPage (getField data "page")
    let l := checkQueryLimit (getField data "limit")
    let k := checkQueryCategoryId (getField data "categoryId")
    let tg := checkQueryTagIds (getField data "tagIds")
    let a := checkQueryAuthorId (getField data "authorId")
    let se := checkQuerySearch (getField data "search")
    let sb := checkQuerySortBy (getField data "sortBy")
    let so := checkQuerySortOrder (getField data "sortOrder")
    let errs := p.1 ++ l.1 ++ k.1 ++ tg.1 ++ a.1 ++ se.1 ++ sb.1 ++ so.1
    (errs,
      if errs.isEmpty then
        some { page := p.2, limit := l.2, categoryId := k.2, tagIds := tg.2,
               authorId := a.2, search := se.2, sortBy := sb.2, sortOrder := so.2 }
      else none)
  else ([⟨"root", "Query parameters must be an object", "INVALID_TYPE"⟩], none)

/-- Embedding of `BaseValidator.validate`: clear the accumulator, run
`validateData`, and return the failure variant exactly when errors were
accumulated.  The method never throws: it is a total function. -/
def runValidate {T : Type} (vd : JsValue → List ValidationError × Option T)
    (data : JsValue) : ValidationResult T :=
  if ((vd data).1).isEmpty then ValidationResult.success (vd data).2
  else ValidationResult.failure (vd data).1

/-- Stateful view of one `BaseValidator.validate` call: the validator
instance carries its `errors` field across calls, the call first runs
`clearErrors` (discarding the incoming state) and ends with the freshly
accumulated list as the new state. -/
def validateCall {T : Type} (vd : JsValue → List ValidationError × Option T)
    (_state : List ValidationError) (data : JsValue) :
    List ValidationError × ValidationResult T :=
  let cleared : List ValidationError := []
  let errs := cleared ++ (vd data).1
  (errs,
    if errs.isEmpty then ValidationResult.success (vd data).2
    else ValidationResult.failure errs)

/-- `validationSchemas.createPost.validate`, parametric in the host URL
parser used for `coverImageUrl`. -/
def CreatePostValidator.validate (u : String → Bool) (data : JsValue) :
    ValidationResult CreatePostRequest :=
  runValidate (validateCreateData u) data

/-- `validationSchemas.updatePost.validate`. -/
def UpdatePostValidator.validate (u : String → Bool) (data : JsValue) :
    ValidationResult UpdatePostRequest :=
  runValidate (validateUpdateData u) data

/-- `validationSchemas.queryParams.validate`. -/
def QueryParamsValidator.validate (data : JsValue) : ValidationResult ListPostsQuery :=
  runValidate validateQueryData data

/-- The `ApiError` class flattened to a record: `name` plays the role of the
concrete class tag set by each subclass constructor. -/
structure ApiError where
  name : String
  message : String
  statusCode : Nat
  code : String
  details : Option (List (String × List String))
deriving Repr, DecidableEq

/-- The base `ApiError` constructor. -/
def mkApiError (message : String) (statusCode : Nat) (code : String)
    (details : Option (List (String × List String))) : ApiError :=
  { name := "ApiError", message := message, statusCode := statusCode,
    code := code, details := details }

/-- One step of the `ValidationApiError` constructor loop
(`details[error.field].push(error.message)`, creating the entry at the end
of the object when the field is new; JavaScript string keys preserve
insertion order). -/
def insertDetailMessage : List (String × List String) → String → String →
    List (String × List String)
  | [], f, m => [(f, [m])]
  | (g, ms) :: rest, f, m =>
    if g = f then (g, ms ++ [m]) :: rest
    else (g, ms) :: insertDetailMessage rest f m

/-- The `details` mapping built by the `ValidationApiError` constructor from
a flat error list. -/
def validationDetails (errors : List ValidationError) : List (String × List String) :=
  errors.foldl (fun d e => insertDetailMessage d e.field e.message) []

/-- The `ValidationApiError` subclass constructor. -/
def ValidationApiError (errors : List ValidationError) : ApiError :=
  { mkApiError "Validation failed" 400 "VALIDATION_ERROR"
      (some (validationDetails errors)) with
    name := "ValidationApiError" }

/-- A `string | number` identifier argument. -/
inductive Identifier where
  | str (s : String)
  | num (n : Int)
deriving Repr, DecidableEq

/-- JavaScript truthiness of an identifier value. -/
def identifierTruthy : Identifier → Bool
  | .str s => s != ""
  | .num n => n != 0

/-- Template-literal rendering of an identifier. -/
def identifierToString : Identifier → String
  | .str s => s
  | .num n => toString n

/-- The `NotFoundError` subclass constructor: the message carries the
identifier exactly when the identifier argument is truthy (so `0` and the
empty string are rendered as if no identifier had been supplied). -/
def NotFoundError (resource : String) (identifier : Option Identifier) : ApiError :=
  let message :=
    match identifier with
    | some i =>
      if identifierTruthy i then
        resource ++ " with ID " ++ identifierToString i ++ " not found"
      else resource ++ " not found"
    | none => resource ++ " not found"
  { mkApiError message 404 "NOT_FOUND" none with name := "NotFoundError" }

namespace ErrorFactory

/-- `ErrorFactory.validation`. -/
def validation (errors : List ValidationError) : ApiError :=
  ValidationApiError errors

/-- `ErrorFactory.notFound`. -/
def notFound (resource : String) (identifier : Option Identifier) : ApiError :=
  NotFoundError resource identifier

/-- `ErrorFactory.internal` (the source defaults the message to
"Internal server error" when no argument is given; callers here always pass
one). -/
def internal (message : String) : ApiError :=
  mkApiError message 500 "INTERNAL_ERROR" none

end ErrorFactory

/-- A value of TypeScript type `unknown` reaching the error classifier:
either an instance of `ApiError`, some other `Error` instance (only its
message is consulted), or a non-error value. -/
inductive JsUnknown where
  | apiError (e : ApiError)
  | jsError (message : String)
  | other (v : JsValue)

namespace ErrorUtils

/-- `ErrorUtils.isApiError` (`error instanceof ApiError`). -/
def isApiError : JsUnknown → Bool
  | .apiError _ => true
  | _ => false

/-- `ErrorUtils.toApiError`: pass typed errors through unchanged, wrap a
generic error's message in an internal 500, and map anything else to a fixed
internal 500. -/
def toApiError : JsUnknown → ApiError
  | .apiError e => e
  | .jsError m => ErrorFactory.internal m
  | .other _ => ErrorFactory.internal "An unknown error occurred"

end ErrorUtils

/-- The inner object of the `ErrorResponse` wire shape. -/
structure ErrorBody where
  message : String
  code : String
  details : Option (List (String × List String))
deriving Repr, DecidableEq

/-- The `ErrorResponse` wire shape `{error: {message, code, details?}}`;
`details := none` models the property holding `undefined`. -/
structure ErrorResponse where
  error : ErrorBody
deriving Repr, DecidableEq

/-- `ApiError.toJSON`: copy message, code and details (possibly undefined)
into the wire shape. -/
def ApiError.toJSON (e : ApiError) : ErrorResponse :=
  { error := { message := e.message, code := e.code, details := e.details } }

/-- `ErrorUtils.formatErrorResponse`. -/
def ErrorUtils.formatErrorResponse (e : ApiError) : ErrorResponse :=
  e.toJSON

/-- A JSON document, used to state what `JSON.stringify` emits. -/
inductive Json where
  | str (s : String)
  | num (n : Int)
  | arr (elems : List Json)
  | obj (fields : List (String × Json))

/-- The `details` mapping as a JSON object (fields in insertion order). -/
def detailsToJson (d : List (String × List String)) : Json :=
  Json.obj (d.map (fun p => (p.1, Json.arr (p.2.map Json.str))))

/-- `JSON.stringify` applied to an `ErrorResponse`: keys appear in
declaration order and a property holding `undefined` is dropped, while a
present-but-empty `details` object is kept. -/
def stringifyErrorResponse (r : ErrorResponse) : Json :=
  Json.obj [("error", Json.obj
    ([("message", Json.str r.error.message), ("code", Json.str r.error.code)] ++
      (match r.error.details with
       | none => []
       | some d => [("details", detailsToJson d)])))]

/-- An HTTP response as assembled by `ErrorResponseBuilder` (the body is
kept as the JSON document that is stringified into it). -/
structure HttpResponse where
  body : Json
  status : Nat
  contentType : String

/-- `ErrorResponseBuilder.error`: serialize the error and pair it with the
error's status code and a JSON content type. -/
def ErrorResponseBuilder.error (e : ApiError) : HttpResponse :=
  { body := stringifyErrorResponse (ErrorUtils.formatErrorResponse e),
    status := e.statusCode,
    contentType := "application/json" }

/-- Key lookup in a JSON object's field list. -/
def Json.lookupKey : List (String × Json) → String → Option Json
  | [], _ => none
  | (k, v) :: rest, name => if k = name then some v else Json.lookupKey rest name

/-- Member access on a JSON object (none on other documents). -/
def Json.getKey : Json → String → Option Json
  | .obj fields, name => Json.lookupKey fields name
  | _, _ => none

/-- Two-level member access on a JSON document. -/
def jsonPath2 (j : Json) (a b : String) : Option Json :=
  match j.getKey a with
  | none => none
  | some x => x.getKey b

section ValidatorTheorems

/-- A URL parser rejecting everything: usable wherever the input carries no
`coverImageUrl`, since the parser is then never consulted. -/
def noUrl : String → Bool := fun _ => false

/-- A URL parser accepting everything. -/
def allUrl : String → Bool := fun _ => true

/-- The end-to-end example input of the specification:
`{title: "Hi", content: "Body", categoryId: 1, tagIds: [1, -2, "x", 3]}`. -/
def mixedTagIdsInput : JsValue :=
  JsValue.vObj [("title", JsValue.vStr "Hi"), ("content", JsValue.vStr "Body"),
    ("categoryId", JsValue.vNum 1),
    ("tagIds", JsValue.vArr [JsValue.vNum 1, JsValue.vNum (-2), JsValue.vStr "x",
      JsValue.vNum 3])]

/-- C1, counterexample: the create validator and the update validator both
return the failure variant on the example input, not a success, because the
two invalid tag ids put errors into the accumulated list and `validate`
returns failure whenever that list is non-empty. -/
theorem mixedTagIds_not_success :
    (CreatePostValidator.validate noUrl mixedTagIdsInput).isSuccess = false ∧
    (UpdatePostValidator.validate noUrl mixedTagIdsInput).isSuccess = false := by
  constructor <;> rfl

/-- C1, amended: on input `{title: "Hi", content: "Body", categoryId: 1,
tagIds: [1, -2, "x", 3]}` both the create and the update validator return
failure with exactly two errors, `INVALID_VALUE` on `tagIds[1]` and
`INVALID_TYPE` on `tagIds[2]`, in that order; the surviving valid ids
`[1, 3]` are computed internally but no data is returned. -/
theorem mixedTagIds_failure_indexed_errors (u : String → Bool) :
    CreatePostValidator.validate u mixedTagIdsInput =
      ValidationResult.failure
        [⟨"tagIds[1]", "Tag ID must be a positive number", "INVALID_VALUE"⟩,
         ⟨"tagIds[2]", "Tag ID must be a number", "INVALID_TYPE"⟩] ∧
    UpdatePostValidator.validate u mixedTagIdsInput =
      ValidationResult.failure
        [⟨"tagIds[1]", "Tag ID must be a positive number", "INVALID_VALUE"⟩,
         ⟨"tagIds[2]", "Tag ID must be a number", "INVALID_TYPE"⟩] ∧
    (checkTagIdsElems 0 [JsValue.vNum 1, JsValue.vNum (-2), JsValue.vStr "x",
      JsValue.vNum 3]).2 = [1, 3] := by
  refine ⟨rfl, rfl, rfl⟩

/-- C5: `ErrorUtils.toApiError` is total over the modelled `unknown` domain
and a retraction onto `ApiError`: typed errors (for instance a
`NotFoundError`) pass through unchanged, a generic error with message
"boom" becomes an internal 500 `INTERNAL_ERROR` carrying "boom", and any
non-error value becomes an internal 500 with the fixed message
"An unknown error occurred". -/
theorem toApiError_classification (e : ApiError) (v : JsValue) :
    ErrorUtils.toApiError (JsUnknown.apiError e) = e ∧
    ErrorUtils.toApiError (JsUnknown.apiError (NotFoundError "Post" (some (Identifier.num 1)))) =
      NotFoundError "Post" (some (Identifier.num 1)) ∧
    ErrorUtils.toApiError (JsUnknown.jsError "boom") =
      { name := "ApiError", message := "boom", statusCode := 500,
        code := "INTERNAL_ERROR", details := none } ∧
    (ErrorUtils.toApiError (JsUnknown.jsError "boom")).statusCode = 500 ∧
    ErrorUtils.toApiError (JsUnknown.other v) =
      { name := "ApiError", message := "An unknown error occurred", statusCode := 500,
        code := "INTERNAL_ERROR", details := none } :=
  ⟨rfl, rfl, rfl, rfl, rfl⟩

/-- C9: a second `validate` call on the same validator instance with the
same input returns a result structurally equal to the first, for each of the
three validators; in particular a valid input yields the same success twice.
The first call's accumulated state (threaded through `validateCall`) is
discarded by `clearErrors` at the start of the second call. -/
theorem validate_repeat_same_result (u : String → Bool)
    (stC stU stQ : List ValidationError) (dataC dataU dataQ : JsValue)
    (dC : Option CreatePostRequest) (dU : Option UpdatePostRequest)
    (dQ : Option ListPostsQuery)
    (hC : (validateCall (validateCreateData u) stC dataC).2 = ValidationResult.success dC)
    (hU : (validateCall (validateUpdateData u) stU dataU).2 = ValidationResult.success dU)
    (hQ : (validateCall validateQueryData stQ dataQ).2 = ValidationResult.success dQ) :
    (validateCall (validateCreateData u)
      ((validateCall (validateCreateData u) stC dataC).1) dataC).2 =
        ValidationResult.success dC ∧
    (validateCall (validateUpdateData u)
      ((validateCall (validateUpdateData u) stU dataU).1) dataU).2 =
        ValidationResult.success dU ∧
    (validateCall validateQueryData
      ((validateCall validateQueryData stQ dataQ).1) dataQ).2 =
        ValidationResult.success dQ :=
  ⟨hC, hU, hQ⟩

/-- An input that is valid for both the create and the update validator. -/
def repeatInput : JsValue :=
  JsValue.vObj [("title", JsValue.vStr "Hi"), ("content", JsValue.vStr "Body"),
    ("categoryId", JsValue.vNum 1)]

/-- A valid query-validator input. -/
def repeatQueryInput : JsValue :=
  JsValue.vObj [("tagIds", JsValue.vStr "1,2"), ("sortOrder", JsValue.vStr "asc")]

/-- Witness for C9 at concrete valid inputs, starting from a non-empty
leftover error state. -/
theorem validate_repeat_same_result_witness :
    (validateCall (validateCreateData noUrl)
      ((validateCall (validateCreateData noUrl) [⟨"f", "m", "c"⟩] repeatInput).1)
      repeatInput).2 =
      ValidationResult.success
        (some ⟨some "Hi", some "Body", some 1, none, none, none, none⟩) ∧
    (validateCall (validateUpdateData noUrl)
      ((validateCall (validateUpdateData noUrl) [⟨"f", "m", "c"⟩] repeatInput).1)
      repeatInput).2 =
      ValidationResult.success
        (some ⟨some "Hi", some "Body", some 1, none, none, none, none⟩) ∧
    (validateCall validateQueryData
      ((validateCall validateQueryData [⟨"f", "m", "c"⟩] repeatQueryInput).1)
      repeatQueryInput).2 =
      ValidationResult.success
        (some ⟨none, none, none, some "1,2", none, none, none, some "asc"⟩) := by
  exact validate_repeat_same_result noUrl [⟨"f", "m", "c"⟩] [⟨"f", "m", "c"⟩]
    [⟨"f", "m", "c"⟩] repeatInput repeatInput repeatQueryInput _ _ _ rfl rfl rfl

end ValidatorTheorems

section TotalityTheorems

/-- On the success path of `validate` the data really is present: an empty
accumulated error list forces `validateData` to have returned a value
(create validator). -/
theorem validateCreateData_no_errors_some (u : String → Bool) (data : JsValue)
    (h : (validateCreateData u data).1 = []) :
    ((validateCreateData u data).2).isSome := by
  unfold validateCreateData at h ⊢
  by_cases hg : (jsTruthy data && typeofIsObject data) = true
  · simp only [if_pos hg] at h ⊢
    rw [h]
    simp
  · rw [if_neg hg] at h
    simp at h

/-- Update-validator analogue of `validateCreateData_no_errors_some`. -/
theorem validateUpdateData_no_errors_some (u : String → Bool) (data : JsValue)
    (h : (validateUpdateData u data).1 = []) :
    ((validateUpdateData u data).2).isSome := by
  unfold validateUpdateData at h ⊢
  by_cases hg : (jsTruthy data && typeofIsObject data) = true
  · simp only [if_pos hg] at h ⊢
    rw [h]
    simp
  · rw [if_neg hg] at h
    simp at h

/-- Query-validator analogue of `validateCreateData_no_errors_some`. -/
theorem validateQueryData_no_errors_some (data : JsValue)
    (h : (validateQueryData data).1 = []) :
    ((validateQueryData data).2).isSome := by
  unfold validateQueryData at h ⊢
  by_cases hg : (jsTruthy data && typeofIsObject data) = true
  · simp only [if_pos hg] at h ⊢
    rw [h]
    simp
  · rw [if_neg hg] at h
    simp at h

/-- On every input, `validate` returns either a success holding data or a
failure holding the non-empty accumulated error list. -/
theorem runValidate_total {T : Type} (vd : JsValue → List ValidationError × Option T)
    (h : ∀ data, (vd data).1 = [] → ((vd data).2).isSome) (data : JsValue) :
    (∃ d, runValidate vd data = ValidationResult.success (some d)) ∨
    (∃ errs, errs ≠ [] ∧ runValidate vd data = ValidationResult.failure errs) := by
  by_cases he : ((vd data).1).isEmpty
  · left
    have h0 : (vd data).1 = [] := List.isEmpty_iff.mp he
    rcases Option.isSome_iff_exists.mp (h data h0) with ⟨d, hd⟩
    exact ⟨d, by simp [runValidate, he, hd]⟩
  · right
    refine ⟨(vd data).1, ?_, by simp [runValidate, he]⟩
    intro hnil
    exact he (by simp [hnil])

/-- C2: each validator's `validate` is a total function (it never throws)
whose value is exactly one of the two variants: a success carrying built
data (the payload is `some`, never the `undefined` that the source's
non-null assertion would let slip through), or a failure carrying the
non-empty list of all errors accumulated in that call; data is never
populated alongside errors, as the two variants are mutually exclusive
constructors. -/
theorem validate_total_two_variants (u : String → Bool) (data : JsValue) :
    ((∃ d, CreatePostValidator.validate u data = ValidationResult.success (some d)) ∨
      (∃ errs, errs ≠ [] ∧
        CreatePostValidator.validate u data = ValidationResult.failure errs)) ∧
    ((∃ d, UpdatePostValidator.validate u data = ValidationResult.success (some d)) ∨
      (∃ errs, errs ≠ [] ∧
        UpdatePostValidator.validate u data = ValidationResult.failure errs)) ∧
    ((∃ d, QueryParamsValidator.validate data = ValidationResult.success (some d)) ∨
      (∃ errs, errs ≠ [] ∧
        QueryParamsValidator.validate data = ValidationResult.failure errs)) :=
  ⟨runValidate_total _ (validateCreateData_no_errors_some u) data,
   runValidate_total _ (validateUpdateData_no_errors_some u) data,
   runValidate_total _ validateQueryData_no_errors_some data⟩

end TotalityTheorems

section NotFoundTheorems

/-- C10: the `NotFoundError` message drops the identifier whenever the
supplied identifier is falsy (the number `0` or the empty string behave as
if no identifier had been passed, because presence is tested by truthiness),
while any other supplied identifier is interpolated into
"(resource) with ID (identifier) not found"; status code and machine code
are always 404 and NOT_FOUND. -/
theorem notFound_message_truthiness (resource : String) (idOpt : Option Identifier)
    (n : Int) (s : String) (hn : n ≠ 0) (hs : s ≠ "") :
    (NotFoundError resource (some (Identifier.num 0))).message =
      resource ++ " not found" ∧
    (NotFoundError resource (some (Identifier.str ""))).message =
      resource ++ " not found" ∧
    (NotFoundError resource none).message = resource ++ " not found" ∧
    (NotFoundError resource (some (Identifier.num n))).message =
      resource ++ " with ID " ++ toString n ++ " not found" ∧
    (NotFoundError resource (some (Identifier.str s))).message =
      resource ++ " with ID " ++ s ++ " not found" ∧
    (NotFoundError resource idOpt).statusCode = 404 ∧
    (NotFoundError resource idOpt).code = "NOT_FOUND" ∧
    (NotFoundError resource idOpt).name = "NotFoundError" := by
  have h1 : identifierTruthy (Identifier.num n) = true := by
    simp [identifierTruthy, hn]
  have h2 : identifierTruthy (Identifier.str s) = true := by
    simp [identifierTruthy, hs]
  refine ⟨rfl, rfl, rfl, ?_, ?_, ?_, ?_, ?_⟩ <;>
    cases idOpt <;>
      simp [NotFoundError, h1, h2, identifierToString, mkApiError]

/-- Witness for C10 at resource "Post", falsy and truthy identifiers. -/
theorem notFound_message_truthiness_witness :
    (NotFoundError "Post" (some (Identifier.num 0))).message = "Post not found" ∧
    (NotFoundError "Post" (some (Identifier.str ""))).message = "Post not found" ∧
    (NotFoundError "Post" none).message = "Post not found" ∧
    (NotFoundError "Post" (some (Identifier.num (-3)))).message =
      "Post with ID -3 not found" ∧
    (NotFoundError "Post" (some (Identifier.str "abc"))).message =
      "Post with ID abc not found" ∧
    (NotFoundError "Post" (some (Identifier.num 5))).statusCode = 404 ∧
    (NotFoundError "Post" (some (Identifier.num 5))).code = "NOT_FOUND" ∧
    (NotFoundError "Post" (some (Identifier.num 5))).name = "NotFoundError" := by
  have h := notFound_message_truthiness "Post" (some (Identifier.num 5)) (-3) "abc"
    (by decide) (by decide)
  simpa using h

end NotFoundTheorems

section CategoryIdTheorems

/-- Whether a value is a JavaScript number (the model carries no `NaN`, so
this coincides with `ValidationUtils.isNumber`). -/
def isNumValue : JsValue → Bool
  | .vNum _ => true
  | _ => false

/-- Negative `categoryId` values reach the positivity test and are flagged
`INVALID_VALUE`. -/
theorem checkCreateCategoryId_neg (n : Int) (hn : n < 0) :
    checkCreateCategoryId (some (JsValue.vNum n)) =
      ([⟨"categoryId", "Category ID must be a positive number", "INVALID_VALUE"⟩], none) := by
  have hne : n ≠ 0 := by omega
  have ht : jsTruthyOpt (some (JsValue.vNum n)) = true := by
    simp [jsTruthyOpt, jsTruthy, hne]
  simp [checkCreateCategoryId, ht, hn.le]

/-- Truthy non-number `categoryId` values are flagged `INVALID_TYPE`. -/
theorem checkCreateCategoryId_nonnum (v : JsValue) (ht : jsTruthy v = true)
    (hv : isNumValue v = false) :
    checkCreateCategoryId (some v) =
      ([⟨"categoryId", "Category ID must be a number", "INVALID_TYPE"⟩], none) := by
  cases v <;> simp_all [checkCreateCategoryId, jsTruthyOpt, isNumValue]

/-- Falsy `categoryId` values (including the number `0`, `false`, the empty
string and `null`) and absent ones are flagged `REQUIRED`. -/
theorem checkCreateCategoryId_falsy (vo : Option JsValue)
    (h : jsTruthyOpt vo = false) :
    checkCreateCategoryId vo =
      ([⟨"categoryId", "Category ID is required", "REQUIRED"⟩], none) := by
  simp [checkCreateCategoryId, h]

/-- Any error produced by the `categoryId` check of the create validator is
in the accumulated error list of the whole call. -/
theorem validateCreateData_mem_of_categoryId (u : String → Bool)
    (fields : List (String × JsValue)) (e : ValidationError)
    (he : e ∈ (checkCreateCategoryId (getField (JsValue.vObj fields) "categoryId")).1) :
    e ∈ (validateCreateData u (JsValue.vObj fields)).1 := by
  unfold validateCreateData
  rw [if_pos (show (jsTruthy (JsValue.vObj fields) &&
    typeofIsObject (JsValue.vObj fields)) = true from rfl)]
  simp [List.mem_append, he]

/-- A call whose `validateData` stage accumulated an error returns failure,
and that error is in the returned list. -/
theorem runValidate_failure_of_mem {T : Type}
    (vd : JsValue → List ValidationError × Option T) (data : JsValue)
    (e : ValidationError) (he : e ∈ (vd data).1) :
    (runValidate vd data).isSuccess = false ∧
    e ∈ (runValidate vd data).errorList := by
  have hne : ¬ ((vd data).1).isEmpty = true := by
    intro hemp
    rw [List.isEmpty_iff.mp hemp] at he
    simp at he
  constructor <;>
    simp [runValidate, hne, ValidationResult.isSuccess, ValidationResult.errorList, he]

/-- `hasError` holds as soon as a matching error is in the list. -/
theorem hasError_of_mem {T : Type} (r : ValidationResult T) (e : ValidationError)
    (f c : String) (he : e ∈ r.errorList) (hf : e.field = f) (hc : e.code = c) :
    hasError r f c = true := by
  simp only [hasError, List.any_eq_true]
  exact ⟨e, he, by simp [hf, hc]⟩

/-- C4, amended: on create, a negative-number `categoryId` yields failure
with `INVALID_VALUE` on `categoryId`; a truthy non-number `categoryId`
yields failure with `INVALID_TYPE`; but every falsy `categoryId` — the
number `0`, `false`, the empty string, `null`, or an absent field — is
flagged `REQUIRED` instead, because the required-check tests truthiness
before the type and range checks run. -/
theorem categoryId_error_classification (u : String → Bool)
    (fields : List (String × JsValue)) (n : Int) (v : JsValue) :
    ((getField (JsValue.vObj fields) "categoryId" = some (JsValue.vNum n) → n < 0 →
      (CreatePostValidator.validate u (JsValue.vObj fields)).isSuccess = false ∧
      hasError (CreatePostValidator.validate u (JsValue.vObj fields))
        "categoryId" "INVALID_VALUE" = true)) ∧
    ((getField (JsValue.vObj fields) "categoryId" = some v → jsTruthy v = true →
      isNumValue v = false →
      (CreatePostValidator.validate u (JsValue.vObj fields)).isSuccess = false ∧
      hasError (CreatePostValidator.validate u (JsValue.vObj fields))
        "categoryId" "INVALID_TYPE" = true)) ∧
    ((jsTruthyOpt (getField (JsValue.vObj fields) "categoryId") = false →
      (CreatePostValidator.validate u (JsValue.vObj fields)).isSuccess = false ∧
      hasError (CreatePostValidator.validate u (JsValue.vObj fields))
        "categoryId" "REQUIRED" = true)) := by
  refine ⟨?_, ?_, ?_⟩
  · intro hg hn
    have hc := checkCreateCategoryId_neg n hn
    have he : (⟨"categoryId", "Category ID must be a positive number",
        "INVALID_VALUE"⟩ : ValidationError) ∈
        (checkCreateCategoryId (getField (JsValue.vObj fields) "categoryId")).1 := by
      rw [hg, hc]; simp
    have hm := validateCreateData_mem_of_categoryId u fields _ he
    have hp := runValidate_failure_of_mem (validateCreateData u) (JsValue.vObj fields) _ hm
    exact ⟨hp.1, hasError_of_mem _ _ _ _ hp.2 rfl rfl⟩
  · intro hg ht hv
    have hc := checkCreateCategoryId_nonnum v ht hv
    have he : (⟨"categoryId", "Category ID must be a number",
        "INVALID_TYPE"⟩ : ValidationError) ∈
        (checkCreateCategoryId (getField (JsValue.vObj fields) "categoryId")).1 := by
      rw [hg, hc]; simp
    have hm := validateCreateData_mem_of_categoryId u fields _ he
    have hp := runValidate_failure_of_mem (validateCreateData u) (JsValue.vObj fields) _ hm
    exact ⟨hp.1, hasError_of_mem _ _ _ _ hp.2 rfl rfl⟩
  · intro hg
    have hc := checkCreateCategoryId_falsy _ hg
    have he : (⟨"categoryId", "Category ID is required",
        "REQUIRED"⟩ : ValidationError) ∈
        (checkCreateCategoryId (getField (JsValue.vObj fields) "categoryId")).1 := by
      rw [hc]; simp
    have hm := validateCreateData_mem_of_categoryId u fields _ he
    have hp := runValidate_failure_of_mem (validateCreateData u) (JsValue.vObj fields) _ hm
    exact ⟨hp.1, hasError_of_mem _ _ _ _ hp.2 rfl rfl⟩

/-- Witness for C4 at three concrete inputs: `categoryId` of `-5` (negative
number), `"x"` (truthy non-number) and `0` (falsy). -/
theorem categoryId_error_classification_witness :
    hasError (CreatePostValidator.validate noUrl (JsValue.vObj
      [("title", JsValue.vStr "Hi"), ("content", JsValue.vStr "Body"),
       ("categoryId", JsValue.vNum (-5))])) "categoryId" "INVALID_VALUE" = true ∧
    hasError (CreatePostValidator.validate noUrl (JsValue.vObj
      [("title", JsValue.vStr "Hi"), ("content", JsValue.vStr "Body"),
       ("categoryId", JsValue.vStr "x")])) "categoryId" "INVALID_TYPE" = true ∧
    hasError (CreatePostValidator.validate noUrl (JsValue.vObj
      [("title", JsValue.vStr "Hi"), ("content", JsValue.vStr "Body"),
       ("categoryId", JsValue.vNum 0)])) "categoryId" "REQUIRED" = true := by
  refine ⟨?_, ?_, ?_⟩
  · exact ((categoryId_error_classification noUrl
      [("title", JsValue.vStr "Hi"), ("content", JsValue.vStr "Body"),
       ("categoryId", JsValue.vNum (-5))] (-5) JsValue.vNull).1 rfl (by decide)).2
  · exact ((categoryId_error_classification noUrl
      [("title", JsValue.vStr "Hi"), ("content", JsValue.vStr "Body"),
       ("categoryId", JsValue.vStr "x")] 0 (JsValue.vStr "x")).2.1 rfl rfl rfl).2
  · exact ((categoryId_error_classification noUrl
      [("title", JsValue.vStr "Hi"), ("content", JsValue.vStr "Body"),
       ("categoryId", JsValue.vNum 0)] 0 JsValue.vNull).2.2 rfl).2

/-- C4, counterexample: with `categoryId: 0` (a number that is not greater
than zero) the create validator reports `REQUIRED`, not `INVALID_VALUE`,
because `0` is falsy; and with the non-number `categoryId: false` it also
reports `REQUIRED`, not `INVALID_TYPE`. -/
theorem categoryId_zero_required_not_invalid :
    CreatePostValidator.validate noUrl (JsValue.vObj
      [("title", JsValue.vStr "Hi"), ("content", JsValue.vStr "Body"),
       ("categoryId", JsValue.vNum 0)]) =
      ValidationResult.failure
        [⟨"categoryId", "Category ID is required", "REQUIRED"⟩] ∧
    hasError (CreatePostValidator.validate noUrl (JsValue.vObj
      [("title", JsValue.vStr "Hi"), ("content", JsValue.vStr "Body"),
       ("categoryId", JsValue.vNum 0)])) "categoryId" "INVALID_VALUE" = false ∧
    CreatePostValidator.validate noUrl (JsValue.vObj
      [("title", JsValue.vStr "Hi"), ("content", JsValue.vStr "Body"),
       ("categoryId", JsValue.vBool false)]) =
      ValidationResult.failure
        [⟨"categoryId", "Category ID is required", "REQUIRED"⟩] ∧
    hasError (CreatePostValidator.validate noUrl (JsValue.vObj
      [("title", JsValue.vStr "Hi"), ("content", JsValue.vStr "Body"),
       ("categoryId", JsValue.vBool false)])) "categoryId" "INVALID_TYPE" = false :=
  ⟨rfl, rfl, rfl, rfl⟩

end CategoryIdTheorems

section QueryTagIdsTheorems

/-- A non-empty string has positive length. -/
theorem string_pos_length_of_ne_empty (s : String) (h : s ≠ "") : 0 < s.length := by
  cases s with
  | mk cs =>
    cases cs with
    | nil => exact absurd (by decide) h
    | cons c rest => simp [String.length]

/-- C7: the list-query `tagIds` string "1,2,x,3" parses to `[1, 2, 3]` with
non-numeric tokens silently dropped and the call succeeds with no error;
any `tagIds` string that is empty or only whitespace yields no error (the
string is assigned as is); and any non-empty, non-whitespace string that
yields zero valid integers produces an `INVALID_VALUE` failure on
`tagIds`. -/
theorem query_tagIds_parsing :
    (ValidationUtils.parseIntegerArray "1,2,x,3" = [1, 2, 3] ∧
      QueryParamsValidator.validate (JsValue.vObj [("tagIds", JsValue.vStr "1,2,x,3")]) =
        ValidationResult.success
          (some ⟨none, none, none, some "1,2,x,3", none, none, none, none⟩)) ∧
    (∀ s : String, jsTrim s = "" →
      QueryParamsValidator.validate (JsValue.vObj [("tagIds", JsValue.vStr s)]) =
        ValidationResult.success
          (some ⟨none, none, none, some s, none, none, none, none⟩)) ∧
    (∀ s : String, jsTrim s ≠ "" → ValidationUtils.parseIntegerArray s = [] →
      QueryParamsValidator.validate (JsValue.vObj [("tagIds", JsValue.vStr s)]) =
        ValidationResult.failure
          [⟨"tagIds", "Tag IDs must be valid integers", "INVALID_VALUE"⟩]) := by
  refine ⟨⟨rfl, rfl⟩, ?_, ?_⟩
  · intro s hs
    have hlen : (jsTrim s).length = 0 := by rw [hs]; rfl
    simp [QueryParamsValidator.validate, runValidate, validateQueryData, getField, jsLookup,
      checkQueryPage, checkQueryLimit, checkQueryCategoryId, checkQueryTagIds,
      checkQueryAuthorId, checkQuerySearch, checkQuerySortBy, checkQuerySortOrder,
      jsTruthy, typeofIsObject, hlen]
  · intro s hs hp
    have hlen : 0 < (jsTrim s).length := string_pos_length_of_ne_empty _ hs
    simp [QueryParamsValidator.validate, runValidate, validateQueryData, getField, jsLookup,
      checkQueryPage, checkQueryLimit, checkQueryCategoryId, checkQueryTagIds,
      checkQueryAuthorId, checkQuerySearch, checkQuerySortBy, checkQuerySortOrder,
      jsTruthy, typeofIsObject, hp, hlen]

/-- Witness for C7 at the whitespace-only string " " and the integer-free
string "x,y". -/
theorem query_tagIds_parsing_witness :
    QueryParamsValidator.validate (JsValue.vObj [("tagIds", JsValue.vStr " ")]) =
      ValidationResult.success
        (some ⟨none, none, none, some " ", none, none, none, none⟩) ∧
    QueryParamsValidator.validate (JsValue.vObj [("tagIds", JsValue.vStr "x,y")]) =
      ValidationResult.failure
        [⟨"tagIds", "Tag IDs must be valid integers", "INVALID_VALUE"⟩] :=
  ⟨query_tagIds_parsing.2.1 " " (by decide),
   query_tagIds_parsing.2.2 "x,y" (by decide) (by decide)⟩

end QueryTagIdsTheorems

section CreateWellformedTheorems

/-- A well-formed title passes its checks and is assigned trimmed. -/
theorem checkCreateTitle_ok (s : String) (h1 : jsTrim s ≠ "") (h2 : s.length ≤ 255) :
    checkCreateTitle (some (JsValue.vStr s)) = ([], some (jsTrim s)) := by
  have hs : s ≠ "" := fun h => h1 (by rw [h]; rfl)
  have ht : jsTruthyOpt (some (JsValue.vStr s)) = true := by
    simp [jsTruthyOpt, jsTruthy, hs]
  have hl : (jsTrim s).length ≠ 0 := by
    have := string_pos_length_of_ne_empty _ h1
    omega
  simp [checkCreateTitle, ht, hl, ValidationUtils.sanitizeString, Nat.not_lt.mpr h2]

/-- A well-formed content passes its checks and is assigned trimmed. -/
theorem checkCreateContent_ok (s : String) (h1 : jsTrim s ≠ "") :
    checkCreateContent (some (JsValue.vStr s)) = ([], some (jsTrim s)) := by
  have hs : s ≠ "" := fun h => h1 (by rw [h]; rfl)
  have ht : jsTruthyOpt (some (JsValue.vStr s)) = true := by
    simp [jsTruthyOpt, jsTruthy, hs]
  have hl : (jsTrim s).length ≠ 0 := by
    have := string_pos_length_of_ne_empty _ h1
    omega
  simp [checkCreateContent, ht, hl, ValidationUtils.sanitizeString]

/-- A positive category id passes its checks. -/
theorem checkCreateCategoryId_pos (n : Int) (h : 0 < n) :
    checkCreateCategoryId (some (JsValue.vNum n)) = ([], some n) := by
  have hne : n ≠ 0 := by omega
  have ht : jsTruthyOpt (some (JsValue.vNum n)) = true := by
    simp [jsTruthyOpt, jsTruthy, hne]
  simp [checkCreateCategoryId, ht, not_le.mpr h]

/-- An in-bounds optional description is assigned trimmed. -/
theorem checkDescription_ok (dOpt : Option String)
    (h : ∀ d, dOpt = some d → d.length ≤ 500) :
    checkDescription (dOpt.map JsValue.vStr) = ([], dOpt.map jsTrim) := by
  cases dOpt with
  | none => rfl
  | some d =>
    simp [checkDescription, Nat.not_lt.mpr (h d rfl), ValidationUtils.sanitizeString]

/-- An optional cover image accepted by the URL parser is assigned verbatim
(not trimmed). -/
theorem checkCoverImageUrl_ok (u : String → Bool) (cvOpt : Option String)
    (h : ∀ sv, cvOpt = some sv → 0 < sv.length → u sv = true) :
    checkCoverImageUrl u (cvOpt.map JsValue.vStr) = ([], cvOpt) := by
  cases cvOpt with
  | none => rfl
  | some s =>
    rcases Nat.eq_zero_or_pos s.length with hz | hp
    · simp [checkCoverImageUrl, hz]
    · simp [checkCoverImageUrl, h s rfl hp]

/-- A list of positive tag ids passes the indexed loop unscathed. -/
theorem checkTagIdsElems_all_pos (l : List Int) (h : ∀ n, n ∈ l → 0 < n) (i : Nat) :
    checkTagIdsElems i (l.map JsValue.vNum) = ([], l) := by
  induction l generalizing i with
  | nil => rfl
  | cons n rest ih =>
    have hn : ¬ n ≤ 0 := by
      have := h n (by simp)
      omega
    have hr := ih (fun m hm => h m (by simp [hm])) (i + 1)
    simp [checkTagIdsElems, hr, hn]

/-- What the create validator assigns for `tagIds`: the filtered list only
when non-empty. -/
def createTagAssign : Option (List Int) → Option (List Int)
  | none => none
  | some l => if 0 < l.length then some l else none

/-- An all-positive optional `tagIds` array produces no error; the value is
assigned only when non-empty. -/
theorem checkCreateTagIds_ok (tgOpt : Option (List Int))
    (h : ∀ l, tgOpt = some l → ∀ n, n ∈ l → 0 < n) :
    checkCreateTagIds (tgOpt.map (fun l => JsValue.vArr (l.map JsValue.vNum))) =
      ([], createTagAssign tgOpt) := by
  cases tgOpt with
  | none => rfl
  | some l =>
    simp [checkCreateTagIds, checkTagIdsElems_all_pos l (h l rfl) 0, createTagAssign]

/-- An in-bounds optional read time is assigned trimmed. -/
theorem checkReadTime_ok (rtOpt : Option String)
    (h : ∀ r, rtOpt = some r → r.length ≤ 50) :
    checkReadTime (rtOpt.map JsValue.vStr) = ([], rtOpt.map jsTrim) := by
  cases rtOpt with
  | none => rfl
  | some r =>
    simp [checkReadTime, Nat.not_lt.mpr (h r rfl), ValidationUtils.sanitizeString]

/-- C3, amended: for every create input whose title is a string that is
non-empty after trimming and whose raw length is at most 255 (the length
ceiling is checked on the untrimmed string), whose content is a string
non-empty after trimming, whose categoryId is a positive number, and whose
optional fields are within their bounds, the create validator succeeds, and
the returned title, content, description and readTime are the trimmed
inputs while coverImageUrl is returned verbatim. -/
theorem create_wellformed_success (u : String → Bool) (fields : List (String × JsValue))
    (t c : String) (k : Int) (dOpt cvOpt rtOpt : Option String) (tgOpt : Option (List Int))
    (ht : getField (JsValue.vObj fields) "title" = some (JsValue.vStr t))
    (ht1 : jsTrim t ≠ "") (ht2 : t.length ≤ 255)
    (hc : getField (JsValue.vObj fields) "content" = some (JsValue.vStr c))
    (hc1 : jsTrim c ≠ "")
    (hk : getField (JsValue.vObj fields) "categoryId" = some (JsValue.vNum k))
    (hk1 : 0 < k)
    (hd : getField (JsValue.vObj fields) "description" = dOpt.map JsValue.vStr)
    (hd1 : ∀ d, dOpt = some d → d.length ≤ 500)
    (hcv : getField (JsValue.vObj fields) "coverImageUrl" = cvOpt.map JsValue.vStr)
    (hcv1 : ∀ sv, cvOpt = some sv → 0 < sv.length → u sv = true)
    (htg : getField (JsValue.vObj fields) "tagIds" =
      tgOpt.map (fun l => JsValue.vArr (l.map JsValue.vNum)))
    (htg1 : ∀ l, tgOpt = some l → ∀ n, n ∈ l → 0 < n)
    (hrt : getField (JsValue.vObj fields) "readTime" = rtOpt.map JsValue.vStr)
    (hrt1 : ∀ r, rtOpt = some r → r.length ≤ 50) :
    CreatePostValidator.validate u (JsValue.vObj fields) =
      ValidationResult.success (some
        { title := some (jsTrim t), content := some (jsTrim c), categoryId := some k,
          description := dOpt.map jsTrim, coverImageUrl := cvOpt,
          tagIds := createTagAssign tgOpt, readTime := rtOpt.map jsTrim }) := by
  have hv : validateCreateData u (JsValue.vObj fields) =
      ([], some
        { title := some (jsTrim t), content := some (jsTrim c), categoryId := some k,
          description := dOpt.map jsTrim, coverImageUrl := cvOpt,
          tagIds := createTagAssign tgOpt, readTime := rtOpt.map jsTrim }) := by
    unfold validateCreateData
    rw [if_pos (show (jsTruthy (JsValue.vObj fields) &&
      typeofIsObject (JsValue.vObj fields)) = true from rfl)]
    rw [ht, hc, hk, hd, hcv, htg, hrt]
    rw [checkCreateTitle_ok t ht1 ht2, checkCreateContent_ok c hc1,
      checkCreateCategoryId_pos k hk1, checkDescription_ok dOpt hd1,
      checkCoverImageUrl_ok u cvOpt hcv1, checkCreateTagIds_ok tgOpt htg1,
      checkReadTime_ok rtOpt hrt1]
    simp
  simp [CreatePostValidator.validate, runValidate, hv]

/-- Witness for C3: a concrete well-formed input with every optional field
present; the strings come back trimmed except the cover image URL, which is
returned with its surrounding spaces. -/
theorem create_wellformed_success_witness :
    CreatePostValidator.validate allUrl (JsValue.vObj
      [("title", JsValue.vStr " T "), ("content", JsValue.vStr " B "),
       ("categoryId", JsValue.vNum 2), ("description", JsValue.vStr " d "),
       ("coverImageUrl", JsValue.vStr " u "), ("tagIds", JsValue.vArr [JsValue.vNum 1]),
       ("readTime", JsValue.vStr " 5 min ")]) =
      ValidationResult.success (some
        { title := some "T", content := some "B", categoryId := some 2,
          description := some "d", coverImageUrl := some " u ",
          tagIds := some [1], readTime := some "5 min" }) := by
  have h := create_wellformed_success allUrl
    [("title", JsValue.vStr " T "), ("content", JsValue.vStr " B "),
     ("categoryId", JsValue.vNum 2), ("description", JsValue.vStr " d "),
     ("coverImageUrl", JsValue.vStr " u "), ("tagIds", JsValue.vArr [JsValue.vNum 1]),
     ("readTime", JsValue.vStr " 5 min ")]
    " T " " B " 2 (some " d ") (some " u ") (some " 5 min ") (some [1])
    rfl (by decide) (by decide) rfl (by decide) rfl (by decide) rfl
    (by intro d hd; injection hd with hd; subst hd; decide)
    rfl (by intro sv hsv hl; rfl)
    rfl (by intro l hl; injection hl with hl; subst hl; intro n hn; simp at hn; omega)
    rfl (by intro r hr; injection hr with hr; subst hr; decide)
  exact h

end CreateWellformedTheorems

section TitleOverflowCounterexample

/-- A title of an `a` followed by 255 spaces: it trims to the one-character
string "a" but its raw length is 256. -/
def overTitle : String :=
  String.mk (Char.ofNat 97 :: List.replicate 255 (Char.ofNat 32))

/-- C3, counterexample: this title trims to a non-empty string of at most
255 characters, the content and categoryId are well formed and no optional
field is present, yet the create validator fails with `MAX_LENGTH` on
`title`, because the 255-character ceiling is applied to the untrimmed
string. -/
theorem wellformed_trimmed_title_overflow :
    jsTrim overTitle ≠ "" ∧ (jsTrim overTitle).length ≤ 255 ∧
    overTitle.length = 256 ∧
    CreatePostValidator.validate noUrl (JsValue.vObj
      [("title", JsValue.vStr overTitle), ("content", JsValue.vStr "Body"),
       ("categoryId", JsValue.vNum 1)]) =
      ValidationResult.failure
        [⟨"title", "Title cannot exceed 255 characters", "MAX_LENGTH"⟩] := by
  refine ⟨by decide, by decide, by decide, by decide⟩

end TitleOverflowCounterexample

section SerializationTheorems

/-- C8, amended: the built HTTP response carries the error's status code, a
JSON content type, and the wire object `{error: {message, code, details?}}`
where the `details` key is omitted exactly when the `details` field is
absent (`undefined`); a present-but-empty `details` mapping is serialized
as an empty object rather than omitted. -/
theorem error_response_shape (e : ApiError) (d : List (String × List String)) :
    (ErrorResponseBuilder.error e).status = e.statusCode ∧
    (ErrorResponseBuilder.error e).contentType = "application/json" ∧
    jsonPath2 (ErrorResponseBuilder.error e).body "error" "message" =
      some (Json.str e.message) ∧
    jsonPath2 (ErrorResponseBuilder.error e).body "error" "code" =
      some (Json.str e.code) ∧
    (e.details = none →
      jsonPath2 (ErrorResponseBuilder.error e).body "error" "details" = none) ∧
    (e.details = some d →
      jsonPath2 (ErrorResponseBuilder.error e).body "error" "details" =
        some (detailsToJson d)) := by
  refine ⟨rfl, rfl, ?_, ?_, ?_, ?_⟩
  · cases hd : e.details <;>
      simp [ErrorResponseBuilder.error, ErrorUtils.formatErrorResponse, ApiError.toJSON,
        stringifyErrorResponse, jsonPath2, Json.getKey, Json.lookupKey, hd]
  · cases hd : e.details <;>
      simp [ErrorResponseBuilder.error, ErrorUtils.formatErrorResponse, ApiError.toJSON,
        stringifyErrorResponse, jsonPath2, Json.getKey, Json.lookupKey, hd]
  · intro hd
    simp [ErrorResponseBuilder.error, ErrorUtils.formatErrorResponse, ApiError.toJSON,
      stringifyErrorResponse, jsonPath2, Json.getKey, Json.lookupKey, hd]
  · intro hd
    simp [ErrorResponseBuilder.error, ErrorUtils.formatErrorResponse, ApiError.toJSON,
      stringifyErrorResponse, jsonPath2, Json.getKey, Json.lookupKey, hd]

/-- Witness for C8 at a concrete error with details and a concrete error
without details. -/
theorem error_response_shape_witness :
    (ErrorResponseBuilder.error (mkApiError "m" 418 "SOME_CODE"
      (some [("f", ["a", "b"])]))).status = 418 ∧
    jsonPath2 (ErrorResponseBuilder.error (mkApiError "m" 418 "SOME_CODE"
      (some [("f", ["a", "b"])]))).body "error" "details" =
      some (detailsToJson [("f", ["a", "b"])]) ∧
    jsonPath2 (ErrorResponseBuilder.error (NotFoundError "Post" none)).body
      "error" "details" = none := by
  refine ⟨?_, ?_, ?_⟩
  · exact (error_response_shape (mkApiError "m" 418 "SOME_CODE"
      (some [("f", ["a", "b"])])) [("f", ["a", "b"])]).1
  · exact (error_response_shape (mkApiError "m" 418 "SOME_CODE"
      (some [("f", ["a", "b"])])) [("f", ["a", "b"])]).2.2.2.2.2 rfl
  · exact (error_response_shape (NotFoundError "Post" none) []).2.2.2.2.1 rfl

/-- C8, counterexample: `ValidationApiError []` carries an empty (not
absent) `details` mapping, and its serialized wire object still contains
the `details` key, holding the empty object — empty details are not
omitted. -/
theorem empty_details_serialized :
    (ValidationApiError []).details = some [] ∧
    jsonPath2 (ErrorResponseBuilder.error (ValidationApiError [])).body
      "error" "details" = some (Json.obj []) ∧
    stringifyErrorResponse (ValidationApiError []).toJSON =
      Json.obj [("error", Json.obj
        [("message", Json.str "Validation failed"),
         ("code", Json.str "VALIDATION_ERROR"),
         ("details", Json.obj [])])] :=
  ⟨rfl, rfl, rfl⟩

end SerializationTheorems

section ValidationDetailsTheorems

/-- The field names of an error list in order of first appearance, skipping
those already seen. -/
def firstSeenFields (seen : List String) : List ValidationError → List String
  | [] => []
  | e :: rest =>
    if e.field ∈ seen then firstSeenFields seen rest
    else e.field :: firstSeenFields (e.field :: seen) rest

/-- The messages of one field's errors, in list order. -/
def fieldMessages (f : String) (errs : List ValidationError) : List String :=
  (errs.filter (fun e => e.field == f)).map ValidationError.message

/-- Unfolding of `fieldMessages` on a cons cell. -/
theorem fieldMessages_cons (f : String) (e : ValidationError) (l : List ValidationError) :
    fieldMessages f (e :: l) =
      if e.field = f then e.message :: fieldMessages f l else fieldMessages f l := by
  by_cases h : e.field = f <;> simp [fieldMessages, h]

/-- `firstSeenFields` only consults membership in `seen`. -/
theorem firstSeenFields_congr (l : List ValidationError) (s1 s2 : List String)
    (h : ∀ x, x ∈ s1 ↔ x ∈ s2) : firstSeenFields s1 l = firstSeenFields s2 l := by
  induction l generalizing s1 s2 with
  | nil => rfl
  | cons e rest ih =>
    by_cases he : e.field ∈ s1
    · rw [firstSeenFields, firstSeenFields, if_pos he, if_pos ((h _).mp he)]
      exact ih s1 s2 h
    · rw [firstSeenFields, firstSeenFields, if_neg he,
        if_neg (fun hx => he ((h _).mpr hx))]
      exact congrArg _ (ih _ _ (fun x => by simp [h x]))

/-- Fields reported by `firstSeenFields` were not in the seen set. -/
theorem firstSeenFields_not_mem_seen (l : List ValidationError) (seen : List String)
    (f : String) (hin : f ∈ firstSeenFields seen l) : f ∉ seen := by
  induction l generalizing seen with
  | nil => simp [firstSeenFields] at hin
  | cons e rest ih =>
    by_cases he : e.field ∈ seen
    · rw [firstSeenFields, if_pos he] at hin
      exact ih seen hin
    · rw [firstSeenFields, if_neg he] at hin
      rcases List.mem_cons.mp hin with h1 | h2
      · exact h1 ▸ he
      · have h3 := ih (e.field :: seen) h2
        exact fun hf => h3 (List.mem_cons_of_mem _ hf)

/-- Inserting a message under a fresh field appends a new entry at the
end. -/
theorem insertDetailMessage_not_mem (d : List (String × List String)) (f m : String)
    (h : f ∉ d.map Prod.fst) : insertDetailMessage d f m = d ++ [(f, [m])] := by
  induction d with
  | nil => rfl
  | cons p rest ih =>
    obtain ⟨g, ms⟩ := p
    simp only [List.map_cons, List.mem_cons, not_or] at h
    rw [insertDetailMessage, if_neg (fun hg => h.1 hg.symm), ih h.2]
    rfl

/-- Inserting a message under an already-present field appends the message
to that field's entry and leaves everything else unchanged (keys are
distinct by construction). -/
theorem insertDetailMessage_mem (d : List (String × List String)) (f m : String)
    (hnd : (d.map Prod.fst).Nodup) (h : f ∈ d.map Prod.fst) :
    insertDetailMessage d f m =
      d.map (fun p => if p.1 = f then (p.1, p.2 ++ [m]) else p) := by
  induction d with
  | nil => simp at h
  | cons p rest ih =>
    obtain ⟨g, ms⟩ := p
    simp only [List.map_cons, List.nodup_cons] at hnd
    by_cases hg : g = f
    · subst hg
      rw [insertDetailMessage, if_pos rfl]
      simp only [List.map_cons, if_pos rfl]
      refine congrArg _ ?_
      have hrest : ∀ q ∈ rest, (if q.1 = g then (q.1, q.2 ++ [m]) else q) = q := by
        intro q hq
        rw [if_neg]
        intro hq1
        exact hnd.1 (hq1 ▸ List.mem_map_of_mem Prod.fst hq)
      have hmap := List.map_congr_left hrest
      simpa using hmap.symm
    · rw [insertDetailMessage, if_neg hg]
      simp only [List.map_cons, if_neg hg]
      refine congrArg _ ?_
      apply ih hnd.2
      rcases List.mem_cons.mp h with h1 | h2
      · exact absurd h1.symm hg
      · exact h2

/-- Running the `ValidationApiError` constructor loop from any accumulator
with distinct keys: existing entries get their fields' messages appended in
order, and fields not yet seen are added at the end in order of first
appearance, each carrying all of that field's messages. -/
theorem foldl_insertDetail_spec (errs : List ValidationError)
    (d : List (String × List String)) (hnd : (d.map Prod.fst).Nodup) :
    errs.foldl (fun acc e => insertDetailMessage acc e.field e.message) d =
      d.map (fun p => (p.1, p.2 ++ fieldMessages p.1 errs)) ++
      (firstSeenFields (d.map Prod.fst) errs).map
        (fun f => (f, fieldMessages f errs)) := by
  induction errs generalizing d with
  | nil =>
    simp [firstSeenFields, fieldMessages]
  | cons e rest ih =>
    rw [List.foldl_cons]
    by_cases he : e.field ∈ d.map Prod.fst
    · rw [insertDetailMessage_mem d e.field e.message hnd he]
      have hkeys : (d.map (fun p => if p.1 = e.field then (p.1, p.2 ++ [e.message])
          else p)).map Prod.fst = d.map Prod.fst := by
        rw [List.map_map]
        apply List.map_congr_left
        intro p _
        by_cases h1 : p.1 = e.field <;> simp [h1]
      rw [ih _ (by rw [hkeys]; exact hnd)]
      rw [firstSeenFields, if_pos he, hkeys]
      congr 1
      · rw [List.map_map]
        apply List.map_congr_left
        intro p _
        by_cases h1 : p.1 = e.field
        · simp only [Function.comp_apply, if_pos h1, fieldMessages_cons,
            if_pos h1.symm, List.append_assoc, List.singleton_append]
        · have h2 : ¬ (e.field = p.1) := fun hx => h1 hx.symm
          simp only [Function.comp_apply, if_neg h1, fieldMessages_cons, if_neg h2]
      · apply List.map_congr_left
        intro f hf
        have hfs : f ∈ d.map Prod.fst → False :=
          firstSeenFields_not_mem_seen rest (d.map Prod.fst) f hf
        have hne : e.field ≠ f := fun hx => hfs (by rw [← hx]; exact he)
        rw [fieldMessages_cons, if_neg hne]
    · rw [insertDetailMessage_not_mem d e.field e.message he]
      have hnd' : ((d ++ [(e.field, [e.message])]).map Prod.fst).Nodup := by
        simp only [List.map_append, List.map_cons, List.map_nil]
        simp [List.nodup_append, hnd, he]
      rw [ih _ hnd']
      rw [firstSeenFields, if_neg he]
      rw [List.map_append]
      rw [List.map_cons]
      rw [List.append_assoc]
      congr 1
      · apply List.map_congr_left
        intro p hp
        have hp1 : p.1 ∈ d.map Prod.fst := List.mem_map_of_mem Prod.fst hp
        have hne : e.field ≠ p.1 := fun hx => he (by rw [hx]; exact hp1)
        rw [fieldMessages_cons, if_neg hne]
      · have hseen : firstSeenFields ((d ++ [(e.field, [e.message])]).map Prod.fst) rest =
            firstSeenFields (e.field :: d.map Prod.fst) rest := by
          apply firstSeenFields_congr
          intro x
          simp [or_comm]
        rw [hseen]
        simp only [List.map_nil, List.singleton_append, List.map_cons]
        rw [fieldMessages_cons, if_pos rfl]
        refine congrArg _ ?_
        apply List.map_congr_left
        intro f hf
        have hfs := firstSeenFields_not_mem_seen rest (e.field :: d.map Prod.fst) f hf
        have hne : e.field ≠ f := by
          intro hx
          exact hfs (by rw [← hx]; exact List.mem_cons_self e.field (d.map Prod.fst))
        rw [fieldMessages_cons, if_neg hne]

/-- C6, amended: the API `ValidationApiError` built from a flat list of
field errors has status code 400, code `VALIDATION_ERROR`, and a `details`
mapping whose keys are the fields of the list in first-seen order, each
mapped to the ordered list of that field's messages; messages are kept as
pushed, so duplicates in the input list are preserved rather than
deduplicated. -/
theorem validation_details_grouping (errors : List ValidationError) :
    (ValidationApiError errors).statusCode = 400 ∧
    (ValidationApiError errors).code = "VALIDATION_ERROR" ∧
    (ValidationApiError errors).name = "ValidationApiError" ∧
    (ValidationApiError errors).details =
      some ((firstSeenFields [] errors).map
        (fun f => (f, fieldMessages f errors))) := by
  refine ⟨rfl, rfl, rfl, ?_⟩
  have h := foldl_insertDetail_spec errors [] (by simp)
  simp only [List.map_nil, List.nil_append] at h
  simp [ValidationApiError, mkApiError, validationDetails, h]

/-- C6, counterexample: two identical messages for the same field are both
kept — the grouped `details` lists the message twice, so messages are not
unique per field. -/
theorem validation_details_duplicate_messages :
    (ValidationApiError [⟨"a", "m", "c1"⟩, ⟨"a", "m", "c2"⟩]).details =
      some [("a", ["m", "m"])] ∧
    ¬ (["m", "m"] : List String).Nodup := by
  exact ⟨rfl, by decide⟩

end ValidationDetailsTheorems
